import Mathlib

/-!
Verification development for `generate_fieldwork_cost_xlsx.py`, a script that
emits a fixed-layout spreadsheet workbook.  The script itself performs no
arithmetic: all computation lives in the formula strings it writes into cells.
We therefore embed two layers, both translated from the source:

* the **artifact layer**: the exact header lists, named-range bindings and
  formula strings the Python code writes (its f-strings become Lean string
  concatenations with `toString row`);
* the **semantic layer**: the evaluation behaviour of those formulas under
  spreadsheet semantics, over a value type `XVal` that carries numbers,
  text, booleans and an error marker, so that `IFERROR`-wrapping (or its
  absence) is observable.

Modelling boundaries of the semantic layer: only the spreadsheet operations
that actually occur in the generated formulas are modelled (`+`, `*`, `>`,
`=`, `IF`, `IFERROR`, `SUM`, `SUMIFS`).  Numbers are exact rationals.
Excel's coercion of numeric-looking text in arithmetic and its
case-insensitive text comparison are not modelled; no claim below depends
on either (all compared strings are concrete and case-identical).
-/

set_option maxRecDepth 16384

namespace Fieldwork

/-- Spreadsheet cell value: a number, a text value, a boolean, or an error
marker (standing for any of Excel's error values such as #VALUE!). -/
inductive XVal where
  | num : ℚ → XVal
  | str : String → XVal
  | boolv : Bool → XVal
  | err : XVal
deriving DecidableEq, Repr

/-- Numeric view used by arithmetic: booleans coerce (TRUE=1, FALSE=0),
text and errors have none (non-numeric text in arithmetic is an error). -/
def toNum : XVal → Option ℚ
  | .num q => some q
  | .boolv b => some (if b then 1 else 0)
  | .str _ => none
  | .err => none

/-- Spreadsheet `+`: numeric addition, anything non-numeric yields an error. -/
def xadd (a b : XVal) : XVal :=
  match toNum a, toNum b with
  | some x, some y => .num (x + y)
  | _, _ => .err

/-- Spreadsheet `*`: numeric multiplication, anything non-numeric yields an error. -/
def xmul (a b : XVal) : XVal :=
  match toNum a, toNum b with
  | some x, some y => .num (x * y)
  | _, _ => .err

/-- Spreadsheet `>` on numbers; non-numeric operands yield an error. -/
def xgt (a b : XVal) : XVal :=
  match toNum a, toNum b with
  | some x, some y => .boolv (decide (x > y))
  | _, _ => .err

/-- Spreadsheet `=` comparison: errors propagate, otherwise value equality. -/
def xeq (a b : XVal) : XVal :=
  match a, b with
  | .err, _ => .err
  | _, .err => .err
  | a, b => .boolv (decide (a = b))

/-- Spreadsheet `IF`: an error condition propagates; a numeric condition is
truthy iff nonzero. -/
def xif (c t e : XVal) : XVal :=
  match c with
  | .boolv true => t
  | .boolv false => e
  | .num q => if q = 0 then e else t
  | .str _ => .err
  | .err => .err

/-- Spreadsheet `IFERROR(a, b)`: `b` when `a` is an error, else `a`. -/
def xiferror (a b : XVal) : XVal :=
  if a = .err then b else a

/-- Spreadsheet `SUM` over a range: text and booleans in the range are
ignored, an error cell makes the whole sum an error. -/
def xsumAux : List XVal → ℚ → XVal
  | [], acc => .num acc
  | .num q :: t, acc => xsumAux t (acc + q)
  | .str _ :: t, acc => xsumAux t acc
  | .boolv _ :: t, acc => xsumAux t acc
  | .err :: _, _ => .err

/-- Spreadsheet `SUM` of a list of cell values. -/
def xsum (l : List XVal) : XVal := xsumAux l 0

/-! ## Artifact layer: defined names (source lines 62-95 and 162-173) -/

/-- Target string built by `add_defined_name`:
`f"'{sheet_title}'!{a1_ref}" if " " in sheet_title else f"{sheet_title}!{a1_ref}"`
(the membership test "space occurs in the title" is taken on the title's
character list). -/
def mk_target (sheet_title a1_ref : String) : String :=
  if ' ' ∈ sheet_title.toList then "'" ++ sheet_title ++ "'!" ++ a1_ref
  else sheet_title ++ "!" ++ a1_ref

/-- `add_defined_name` (source lines 62-95): on every openpyxl container
variant it first removes any existing binding for `name` (the `delete` /
`del` / iterate-and-remove branches) and then inserts the new
`DefinedName`.  The workbook-level registry is modelled as the association
list of (name, target) bindings in insertion order. -/
def add_defined_name (reg : List (String × String)) (sheet_title name a1_ref : String) :
    List (String × String) :=
  reg.filter (fun p => !(p.1 == name)) ++ [(name, mk_target sheet_title a1_ref)]

/-- Source lines 163-172: the dict of named ranges bound on the
"Inputs & Rates" sheet. -/
def named_range_entries : List (String × String) :=
  [("PER_DIEM", "$B$2"),
   ("STADTMOBIL_BASE", "$B$3"),
   ("STADTMOBIL_CAR_NUMBER", "$B$4"),
   ("TOTAL_KM", "$B$5"),
   ("STADTMOBIL_PER_KM", "$B$6"),
   ("STADTMOBIL_LUMPSUM", "$B$7"),
   ("OVERNIGHT_DEFAULT", "$B$8"),
   ("HIWI_RATE", "$B$9")]

/-- The defined-name registry after the loop at source line 163: each entry
of `named_range_entries` is added with `add_defined_name` on sheet
"Inputs & Rates", starting from the fresh workbook's empty registry. -/
def build_registry : List (String × String) :=
  named_range_entries.foldl (fun reg p => add_defined_name reg "Inputs & Rates" p.1 p.2) []

/-! ## Artifact layer: Inputs & Rates rows (source lines 141-150) -/

/-- Source `rate_rows`: (item label, default value, note).  Values as exact
rationals (0.35 = 35/100). -/
def rate_rows : List (String × ℚ × String) :=
  [("Per diem - full day (domestic)", 24, "Defaults to EUR 24 per full day"),
   ("Stadtmobil base rate", 150, "Set to average base rate in EUR for all Stadtmobil rentals"),
   ("Number of Stadtmobil cars", 1, "Define number of rented cars"),
   ("Total trip kilometers", 100, "Define the sum of all km per car"),
   ("Stadtmobil per-km cost (incl. fuel)", 35/100, "Planning value only; adjust to Stadtmobil rate for relevant cars"),
   ("Alternative - Stadtmobil lump sum", 0, "Enter a lump sum in EUR for all Stadtmobil rentals (e.g., for post-cost assessment)"),
   ("Default overnight cost per night", 95, "Planning cap or expected average incl. taxes; edit per trip"),
   ("Hiwi hourly rate (default)", 20, "Accounts for future wage raises")]

/-! ## Artifact layer: Staff & Participants sheet (source lines 178-241) -/

/-- Source `staff_headers` (lines 179-187): the 15 header cells of row 1.
Column n of the sheet holds entry n-1 of this list. -/
def staff_headers : List String :=
  ["First name", "Last name", "Role (WiMi/VA/Hiwi/Unpaid graduating student)",
   "Trip start (date/time)", "Trip end (date/time)",
   "Full-day count", "Partial-day count (>8h or arr/dep)",
   "Per-diem total (EUR)",
   "Nights", "Overnight cost per night (EUR)", "Overnight total (EUR)",
   "Hours (from Hours Log)", "Hourly rate (EUR)", "Wages total (EUR)",
   "Participant subtotal (EUR)"]

/-- Formula written to staff column 8 (source lines 204-206). -/
def staffPerDiemFormula (row : ℕ) : String :=
  "=IF(C" ++ toString row ++ "=\"Student (unpaid)\",0,IFERROR(F" ++ toString row
    ++ "*PER_DIEM + G" ++ toString row ++ "*PER_DIEM,0))"

/-- Formula written to staff column 10 (source line 210). -/
def staffOvernightRateFormula : String := "=OVERNIGHT_DEFAULT"

/-- Formula written to staff column 11 (source line 212). -/
def staffOvernightTotalFormula (row : ℕ) : String :=
  "=IFERROR(I" ++ toString row ++ "*J" ++ toString row ++ ",0)"

/-- Formula written to staff column 12 (source lines 216-218). -/
def staffHoursFormula (row : ℕ) : String :=
  "=IFERROR(SUMIFS('Hours Log'!$F$2:$F$1000,'Hours Log'!$B$2:$B$1000,A" ++ toString row
    ++ ",'Hours Log'!$C$2:$C$1000,B" ++ toString row ++ "),0)"

/-- Formula written to staff column 13 (source line 221). -/
def staffHourlyRateFormula (row : ℕ) : String :=
  "=IF(C" ++ toString row ++ "=\"Hiwi (student assistant)\",HIWI_RATE,0)"

/-- Formula written to staff column 15 (source line 226). -/
def staffWagesFormula (row : ℕ) : String :=
  "=IFERROR(L" ++ toString row ++ "*M" ++ toString row ++ ",0)"

/-- Formula written to staff column 16 (source line 230). -/
def staffSubtotalFormula (row : ℕ) : String :=
  "=H" ++ toString row ++ "+K" ++ toString row ++ "+O" ++ toString row

/-- The loop body at source lines 200-231: the formula (if any) written to
cell (row, col) of the Staff & Participants sheet, for rows 2..301. -/
def staffCellFormula (row col : ℕ) : Option String :=
  if col = 8 then some (staffPerDiemFormula row)
  else if col = 10 then some staffOvernightRateFormula
  else if col = 11 then some (staffOvernightTotalFormula row)
  else if col = 12 then some (staffHoursFormula row)
  else if col = 13 then some (staffHourlyRateFormula row)
  else if col = 15 then some (staffWagesFormula row)
  else if col = 16 then some (staffSubtotalFormula row)
  else none

/-- `openpyxl.utils.get_column_letter` restricted to columns 1..26, the only
range the script uses. -/
def get_column_letter (n : ℕ) : String := String.singleton (Char.ofNat (64 + n))

/-- Columns summed by the staff totals row (source line 236). -/
def staff_total_cols : List ℕ := [8, 11, 12, 15, 16]

/-- Totals-row formula at staff row 302, column c (source line 237). -/
def staffTotalsFormula (c : ℕ) : String :=
  "=SUM(" ++ get_column_letter c ++ "2:" ++ get_column_letter c ++ "301)"

/-! ## Artifact layer: Hours Log sheet (source lines 246-254) -/

/-- Source `hours_headers` (line 247): column n of the Hours Log sheet holds
entry n-1; so column B is "Task/Activity", column C is "First name",
column D is "Last name" and column F is "Hours". -/
def hours_headers : List String :=
  ["Date", "Task/Activity", "First name", "Last name", "Role (opt.)", "Hours"]

/-! ## Artifact layer: Travel & Vehicles sheet (source lines 259-291) -/

/-- Source `travel_headers` (lines 260-265). -/
def travel_headers : List String :=
  ["Date", "Type (Train/Flight/Rental/Private/Taxi/PT)", "Route / Purpose / Notes",
   "Ticket/Day rate (EUR)", "Qty (days / tickets)", "Line item (EUR)",
   "Rental km (estimate)", "Rental per-km (EUR)", "Rental variable (EUR)",
   "Private-car km", "Private-car reimb. (EUR)", "Travel subtotal (EUR)"]

/-- Formula written to travel column 6 (source line 275). -/
def travelLineFormula (row : ℕ) : String :=
  "=IFERROR(D" ++ toString row ++ "*E" ++ toString row ++ ",0)"

/-- Formula written to travel column 12 (source line 283). -/
def travelSubtotalFormula (row : ℕ) : String :=
  "=F" ++ toString row ++ "+I" ++ toString row ++ "+K" ++ toString row

/-- The loop body at source lines 273-284: the cell content written to
(row, col) of the Travel & Vehicles sheet for rows 2..500.  Column 8 is set
to the empty string, columns 9 and 11 to the constant formula "=0". -/
def travelCellFormula (row col : ℕ) : Option String :=
  if col = 6 then some (travelLineFormula row)
  else if col = 8 then some ""
  else if col = 9 then some "=0"
  else if col = 11 then some "=0"
  else if col = 12 then some (travelSubtotalFormula row)
  else none

/-- Columns summed by the travel totals row (source line 288). -/
def travel_total_cols : List ℕ := [6, 9, 11, 12]

/-- Totals-row formula at travel row 502, column c (source line 289). -/
def travelTotalsFormula (c : ℕ) : String :=
  "=SUM(" ++ get_column_letter c ++ "2:" ++ get_column_letter c ++ "501)"

/-! ## Artifact layer: Material Expenses sheet (source lines 296-310) -/

/-- Formula written to materials column 6 (source line 305). -/
def materialLineFormula (row : ℕ) : String :=
  "=IFERROR(D" ++ toString row ++ "*E" ++ toString row ++ ",0)"

/-- Materials totals-row formula at row 402, column 6 (source line 310). -/
def materialTotalsFormula : String := "=SUM(F2:F401)"

/-! ## Artifact layer: Summary sheet (source lines 316-346)

Cell A1 is set directly; the appended rows land on rows 2, 3, ... in order,
so the six category rows are rows 4-9 and the grand total is row 10. -/

/-- The rows appended to the Summary sheet, in order, as
(label, cell B content, note); the list head is sheet row 2. -/
def summary_body : List (String × String × String) :=
  [("", "", ""),
   ("Category", "Subtotal (EUR)", "Notes"),
   ("Per-diems (total)", "=IFERROR('Staff & Participants'!H302,0)",
    "WiMi, VA & Hiwi only; unpaid students excluded."),
   ("Overnights", "=IFERROR('Staff & Participants'!K302,0)", "Nights x cost/night."),
   ("Hiwi wages", "=IFERROR('Staff & Participants'!O302,0)", "Hours x rate if used)."),
   ("Tickets / day-rates (travel)", "=IFERROR('Travel & Vehicles'!F502,0)",
    "Trains, flights, taxis, PT, etc."),
   ("Stadtmobil (cars, base + km) or lump sum",
    "=IF(STADTMOBIL_LUMPSUM>0, STADTMOBIL_LUMPSUM, STADTMOBIL_CAR_NUMBER*STADTMOBIL_BASE + TOTAL_KM*STADTMOBIL_PER_KM)",
    "If a lump sum is provided (>0), it overrides the calculated cost."),
   ("Materials & other", "=IFERROR('Material Expenses'!F402,0)",
    "Consumables, rentals, permits, shipping."),
   ("Grand total (EUR)", "=SUM(B4:B9)", "Includes Stadtmobil and all other categories."),
   ("", "", ""),
   ("Notes", "",
    "Set rates in 'Inputs & Rates'. Roles: WiMi, VA staff & Hiwis may receive per-diem; 'Student (unpaid)' receives overnights only.")]

/-- Content of Summary cell (row, column B) for appended rows: row r of the
sheet is entry r-2 of `summary_body`. -/
def summaryCellB (row : ℕ) : Option String :=
  (summary_body.get? (row - 2)).map (fun t => t.2.1)

/-- The Stadtmobil formula written to Summary cell B8 (source line 338). -/
def stadtmobilSummaryFormula : String :=
  "=IF(STADTMOBIL_LUMPSUM>0, STADTMOBIL_LUMPSUM, STADTMOBIL_CAR_NUMBER*STADTMOBIL_BASE + TOTAL_KM*STADTMOBIL_PER_KM)"

/-! ## Semantic layer: evaluation of the generated formulas

Each function below is the spreadsheet evaluation of the formula string of
the same name, with the referenced cells / named ranges passed as `XVal`
arguments. -/

/-- Value of `staffPerDiemFormula`:
`IF(C="Student (unpaid)", 0, IFERROR(F*PER_DIEM + G*PER_DIEM, 0))` where
`role` is cell C, `fullDays` cell F, `partialDays` cell G and `perDiem` the
PER_DIEM named cell. -/
def perDiemVal (role fullDays partialDays perDiem : XVal) : XVal :=
  xif (xeq role (.str "Student (unpaid)")) (.num 0)
    (xiferror (xadd (xmul fullDays perDiem) (xmul partialDays perDiem)) (.num 0))

/-- Value of `staffOvernightTotalFormula`: `IFERROR(I*J, 0)` where `nights`
is cell I and `rate` cell J. -/
def overnightTotalVal (nights rate : XVal) : XVal :=
  xiferror (xmul nights rate) (.num 0)

/-- Value of `staffHourlyRateFormula`:
`IF(C="Hiwi (student assistant)", HIWI_RATE, 0)`. -/
def hourlyRateVal (role hiwiRate : XVal) : XVal :=
  xif (xeq role (.str "Hiwi (student assistant)")) hiwiRate (.num 0)

/-- Value of `staffWagesFormula`: `IFERROR(L*M, 0)` where `hours` is cell L
and `rate` cell M. -/
def wagesVal (hours rate : XVal) : XVal :=
  xiferror (xmul hours rate) (.num 0)

/-- Value of `staffSubtotalFormula`: `H + K + O` (left-associated, as the
spreadsheet parses it). -/
def staffSubtotalVal (perDiem overnight wages : XVal) : XVal :=
  xadd (xadd perDiem overnight) wages

/-- Row of the Hours Log sheet (columns A-F, see `hours_headers`):
column B is the task label, column C the first name, column D the last
name, column F the hours. -/
structure HoursEntry where
  date : String
  task : String
  firstName : String
  lastName : String
  role : String
  hours : ℚ
deriving DecidableEq, Repr

/-- Value of `staffHoursFormula` on a log whose populated rows are `log`:
`SUMIFS('Hours Log'!$F$2:$F$1000, 'Hours Log'!$B$2:$B$1000, A,
'Hours Log'!$C$2:$C$1000, B)` sums the column-F hours of the entries whose
column B (the task cell) equals the staff row's first name (cell A) and
whose column C (the log's first-name cell) equals the staff row's last name
(cell B). -/
def staffHoursVal (first last : String) (log : List HoursEntry) : ℚ :=
  ((log.filter (fun e => e.task == first && e.firstName == last)).map
    (fun e => e.hours)).sum

/-- Modelled from the spec: "Hours = sum of all Hours Entries whose
first+last name exactly match this row (case-sensitive exact string
match)".  This is the spec's intended aggregation, stated for comparison
with `staffHoursVal`, the aggregation the generated formula performs. -/
def specHoursVal (first last : String) (log : List HoursEntry) : ℚ :=
  ((log.filter (fun e => e.firstName == first && e.lastName == last)).map
    (fun e => e.hours)).sum

/-- Value of `travelLineFormula`: `IFERROR(D*E, 0)` where `unitRate` is
cell D and `qty` cell E. -/
def travelLineVal (unitRate qty : XVal) : XVal :=
  xiferror (xmul unitRate qty) (.num 0)

/-- Value of the constant formula `=0` written to travel columns 9 and 11. -/
def suppressedVal : XVal := .num 0

/-- Value of `travelSubtotalFormula`: `F + I + K` (left-associated). -/
def travelSubtotalVal (line rentalVar privateReimb : XVal) : XVal :=
  xadd (xadd line rentalVar) privateReimb

/-- Value of `materialLineFormula`: `IFERROR(D*E, 0)`. -/
def materialLineVal (units unitCost : XVal) : XVal :=
  xiferror (xmul units unitCost) (.num 0)

/-- Value of the Stadtmobil formula in Summary cell B8:
`IF(STADTMOBIL_LUMPSUM>0, STADTMOBIL_LUMPSUM,
STADTMOBIL_CAR_NUMBER*STADTMOBIL_BASE + TOTAL_KM*STADTMOBIL_PER_KM)`. -/
def stadtmobilVal (lumpsum carNumber base totalKm perKm : XVal) : XVal :=
  xif (xgt lumpsum (.num 0)) lumpsum
    (xadd (xmul carNumber base) (xmul totalKm perKm))

/-- Value of the Summary category formulas `=IFERROR(<ledger total>,0)`
(cells B4, B5, B6, B7 and B9). -/
def summaryPullVal (ledgerTotal : XVal) : XVal :=
  xiferror ledgerTotal (.num 0)

/-- Value of the grand-total formula `=SUM(B4:B9)` given the values of the
six category cells B4..B9. -/
def grandTotalVal (categories : List XVal) : XVal := xsum categories

/-! ## Helper lemmas -/

/-- A pattern occurring in one chunk of a concatenated string occurs in the
whole concatenation. -/
lemma isInfix_of_chunk {pat chunk : String} (pre post : String)
    (hs : pat.toList <:+: chunk.toList) :
    pat.toList <:+: (pre ++ chunk ++ post).toList := by
  have : (pre ++ chunk ++ post).toList = pre.toList ++ chunk.toList ++ post.toList := by
    show (pre ++ chunk ++ post).data = pre.data ++ chunk.data ++ post.data
    simp [String.data_append]
  rw [this]
  exact hs.trans (List.infix_append pre.toList chunk.toList post.toList)

/-- A pattern occurring in the trailing chunk of a concatenation occurs in
the whole concatenation. -/
lemma isInfix_of_last_chunk {pat chunk : String} (pre : String)
    (hs : pat.toList <:+: chunk.toList) :
    pat.toList <:+: (pre ++ chunk).toList := by
  have : (pre ++ chunk).toList = pre.toList ++ chunk.toList := by
    show (pre ++ chunk).data = pre.data ++ chunk.data
    simp [String.data_append]
  rw [this]
  exact hs.trans (List.suffix_append pre.toList chunk.toList).isInfix

/-- `SUM` over purely numeric cells is the numeric sum. -/
lemma xsum_map_num (ws : List ℚ) : xsum (ws.map XVal.num) = .num ws.sum := by
  suffices h : ∀ acc : ℚ, xsumAux (ws.map XVal.num) acc = .num (acc + ws.sum) by
    simpa [xsum] using h 0
  induction ws with
  | nil => intro acc; simp [xsumAux]
  | cons w t ih =>
    intro acc
    simp only [List.map_cons, xsumAux, ih, List.sum_cons, XVal.num.injEq]
    ring

/-- Filtering for a key immediately after filtering it out yields nothing. -/
lemma filter_eq_after_filter_ne (reg : List (String × String)) (name : String) :
    (reg.filter (fun p => !(p.1 == name))).filter (fun p => p.1 == name) = [] := by
  induction reg with
  | nil => rfl
  | cons h t ih =>
    by_cases hc : h.1 == name <;> simp [List.filter_cons, hc, ih]

/-! ## Claims -/

/-- C1: the shared-vehicle (Stadtmobil) summary category: with a positive
lump-sum override it equals the lump sum exactly, whatever the car count,
base rate, distance and per-distance rate; with lump sum 0 it equals
car_count * base_rate + total_distance * per_distance_rate; at the two
concrete inputs of the claim it evaluates to 185 and 500 respectively, and
the formula is written once, to Summary cell B8. -/
theorem c1_stadtmobil_summary :
    (∀ lump cars base km perKm : ℚ, 0 < lump →
      stadtmobilVal (.num lump) (.num cars) (.num base) (.num km) (.num perKm)
        = .num lump) ∧
    (∀ cars base km perKm : ℚ,
      stadtmobilVal (.num 0) (.num cars) (.num base) (.num km) (.num perKm)
        = .num (cars * base + km * perKm)) ∧
    stadtmobilVal (.num 0) (.num 1) (.num 150) (.num 100) (.num (35/100)) = .num 185 ∧
    stadtmobilVal (.num 500) (.num 1) (.num 150) (.num 100) (.num (35/100)) = .num 500 ∧
    summaryCellB 8 =
      some "=IF(STADTMOBIL_LUMPSUM>0, STADTMOBIL_LUMPSUM, STADTMOBIL_CAR_NUMBER*STADTMOBIL_BASE + TOTAL_KM*STADTMOBIL_PER_KM)" := by
  have hpos : ∀ lump cars base km perKm : ℚ, 0 < lump →
      stadtmobilVal (.num lump) (.num cars) (.num base) (.num km) (.num perKm)
        = .num lump := by
    intro lump cars base km perKm h
    simp [stadtmobilVal, xgt, xif, toNum, h]
  have hzero : ∀ cars base km perKm : ℚ,
      stadtmobilVal (.num 0) (.num cars) (.num base) (.num km) (.num perKm)
        = .num (cars * base + km * perKm) := by
    intro cars base km perKm
    simp [stadtmobilVal, xgt, xif, xadd, xmul, toNum]
  refine ⟨hpos, hzero, ?_, ?_, rfl⟩
  · rw [hzero]; norm_num
  · exact hpos 500 1 150 100 (35/100) (by norm_num)

/-- Witness for C1: the positive-lump-sum branch at lump sum 500. -/
theorem c1_stadtmobil_summary_witness :
    stadtmobilVal (.num 500) (.num 1) (.num 150) (.num 100) (.num (35/100)) = .num 500 :=
  c1_stadtmobil_summary.1 500 1 150 100 (35/100) (by norm_num)

/-- C2: the per-diem formula yields 0 for the unpaid-student role whatever
the day counts (even error-valued ones), and for any other role yields
full_day_count * rate + partial_day_count * rate; at rate 24 with 2 full
and 1 partial day it yields 72. -/
theorem c2_per_diem :
    (∀ fullDays partialDays perDiem : XVal,
      perDiemVal (.str "Student (unpaid)") fullDays partialDays perDiem = .num 0) ∧
    (∀ role : String, role ≠ "Student (unpaid)" →
      ∀ f g p : ℚ,
        perDiemVal (.str role) (.num f) (.num g) (.num p) = .num (f * p + g * p)) ∧
    perDiemVal (.str "WiMi") (.num 2) (.num 1) (.num 24) = .num 72 := by
  have hother : ∀ role : String, role ≠ "Student (unpaid)" →
      ∀ f g p : ℚ,
        perDiemVal (.str role) (.num f) (.num g) (.num p) = .num (f * p + g * p) := by
    intro role h f g p
    simp [perDiemVal, xeq, xif, xadd, xmul, xiferror, toNum, h]
  refine ⟨fun _ _ _ => rfl, hother, ?_⟩
  rw [hother "WiMi" (by decide) 2 1 24]; norm_num

/-- Witness for C2: the non-student branch at role "WiMi", rate 24, 2 full
days and 1 partial day. -/
theorem c2_per_diem_witness :
    perDiemVal (.str "WiMi") (.num 2) (.num 1) (.num 24) = .num (2 * 24 + 1 * 24) :=
  c2_per_diem.2.1 "WiMi" (by decide) 2 1 24

/-- C3: the grand total in the Summary sheet is `=SUM(B4:B9)`, and sheet
rows 4-9 hold exactly the six category formulas (per-diems, overnights,
Hiwi wages, travel tickets, Stadtmobil, materials) — no further term
enters, and SUM of six numeric category values is exactly their sum. -/
theorem c3_grand_total :
    summaryCellB 10 = some "=SUM(B4:B9)" ∧
    summaryCellB 4 = some "=IFERROR('Staff & Participants'!H302,0)" ∧
    summaryCellB 5 = some "=IFERROR('Staff & Participants'!K302,0)" ∧
    summaryCellB 6 = some "=IFERROR('Staff & Participants'!O302,0)" ∧
    summaryCellB 7 = some "=IFERROR('Travel & Vehicles'!F502,0)" ∧
    summaryCellB 8 =
      some "=IF(STADTMOBIL_LUMPSUM>0, STADTMOBIL_LUMPSUM, STADTMOBIL_CAR_NUMBER*STADTMOBIL_BASE + TOTAL_KM*STADTMOBIL_PER_KM)" ∧
    summaryCellB 9 = some "=IFERROR('Material Expenses'!F402,0)" ∧
    (∀ a b c d e f : ℚ,
      grandTotalVal [.num a, .num b, .num c, .num d, .num e, .num f]
        = .num (a + b + c + d + e + f)) := by
  refine ⟨rfl, rfl, rfl, rfl, rfl, rfl, rfl, ?_⟩
  intro a b c d e f
  simp only [grandTotalVal, xsum, xsumAux, XVal.num.injEq]
  ring

/-- C4 (formula as generated): the Hours Log sheet has "Task/Activity" in
column B, "First name" in column C and "Last name" in column D, but the
generated SUMIFS matches column B against the staff row's first name (cell
A) and column C against its last name (cell B); consequently a log entry
whose first and last name exactly match a participant row contributes 0 to
that row's hours cell, while the spec-intended first+last-name aggregation
would count it. -/
theorem c4_hours_column_mismatch :
    hours_headers.get? 1 = some "Task/Activity" ∧
    hours_headers.get? 2 = some "First name" ∧
    hours_headers.get? 3 = some "Last name" ∧
    staffHoursFormula 2 =
      "=IFERROR(SUMIFS('Hours Log'!$F$2:$F$1000,'Hours Log'!$B$2:$B$1000,A2,'Hours Log'!$C$2:$C$1000,B2),0)" ∧
    staffHoursVal "Anna" "Smith"
      [{ date := "2026-05-04", task := "Sampling", firstName := "Anna",
         lastName := "Smith", role := "Hiwi (student assistant)", hours := 5 }] = 0 ∧
    specHoursVal "Anna" "Smith"
      [{ date := "2026-05-04", task := "Sampling", firstName := "Anna",
         lastName := "Smith", role := "Hiwi (student assistant)", hours := 5 }] = 5 := by
  refine ⟨rfl, rfl, rfl, rfl, ?_, ?_⟩
  · simp [staffHoursVal]
  · simp [specHoursVal]

/-- C5 counterexample: the participant-subtotal formula `=H2+K2+O2` carries
no error-to-zero wrapper, so an error-valued upstream cell makes the
subtotal evaluate to an error, not 0, refuting the claim that every
derived cell degrades to 0. -/
theorem c5_counterexample :
    staffSubtotalVal XVal.err (.num 0) (.num 0) = XVal.err ∧
    staffSubtotalVal XVal.err (.num 0) (.num 0) ≠ .num 0 ∧
    staffSubtotalFormula 2 = "=H2+K2+O2" := by
  refine ⟨rfl, ?_, rfl⟩
  simp [staffSubtotalVal, xadd, toNum]

/-- C5 (amended): the per-row line-item formulas (per-diem, overnight
total, wages, travel line item, material line total) and the Summary
ledger pulls are IFERROR-wrapped and evaluate to 0 on an error-valued
input, but the row subtotals, the SUM totals rows, the Stadtmobil formula
and the hourly-rate formula are not wrapped and propagate the error. -/
theorem c5_error_fallback_amended :
    (∀ role : String, role ≠ "Student (unpaid)" → ∀ g p : XVal,
      perDiemVal (.str role) XVal.err g p = .num 0) ∧
    (∀ j, overnightTotalVal XVal.err j = .num 0) ∧
    (∀ m, wagesVal XVal.err m = .num 0) ∧
    (∀ e, travelLineVal XVal.err e = .num 0) ∧
    (∀ e, materialLineVal XVal.err e = .num 0) ∧
    summaryPullVal XVal.err = .num 0 ∧
    (∀ k o, staffSubtotalVal XVal.err k o = XVal.err) ∧
    (∀ i k, travelSubtotalVal XVal.err i k = XVal.err) ∧
    (∀ l, grandTotalVal (XVal.err :: l) = XVal.err) ∧
    (∀ cars base km perKm, stadtmobilVal XVal.err cars base km perKm = XVal.err) ∧
    (∀ hr, hourlyRateVal XVal.err hr = XVal.err) := by
  refine ⟨?_, fun j => rfl, fun m => rfl, fun e => rfl, fun e => rfl, rfl,
    fun k o => rfl, fun i k => rfl, fun l => rfl, fun cars base km perKm => rfl,
    fun hr => rfl⟩
  intro role h g p
  simp [perDiemVal, xeq, xif, xadd, xmul, xiferror, toNum, h]

/-- Witness for C5 (amended): the per-diem formula of a "WiMi" row with an
error-valued full-day count evaluates to 0. -/
theorem c5_error_fallback_amended_witness :
    perDiemVal (.str "WiMi") XVal.err (.num 1) (.num 24) = .num 0 :=
  c5_error_fallback_amended.1 "WiMi" (by decide) (.num 1) (.num 24)

/-- C6: the hourly-rate formula yields 0 for every role other than
"Hiwi (student assistant)", and then the wage formula yields 0 whatever the
hours; for the Hiwi role the rate cell equals the HIWI_RATE registry value
and the wage formula computes hours * rate. -/
theorem c6_hourly_rate_and_wages :
    (∀ role : String, role ≠ "Hiwi (student assistant)" → ∀ hr : XVal,
      hourlyRateVal (.str role) hr = .num 0) ∧
    (∀ role : String, role ≠ "Hiwi (student assistant)" → ∀ hr : XVal, ∀ h : ℚ,
      wagesVal (.num h) (hourlyRateVal (.str role) hr) = .num 0) ∧
    (∀ hr : XVal, hourlyRateVal (.str "Hiwi (student assistant)") hr = hr) ∧
    (∀ h r : ℚ, wagesVal (.num h) (.num r) = .num (h * r)) := by
  have hrate : ∀ role : String, role ≠ "Hiwi (student assistant)" → ∀ hr : XVal,
      hourlyRateVal (.str role) hr = .num 0 := by
    intro role h hr
    simp [hourlyRateVal, xeq, xif, h]
  refine ⟨hrate, ?_, fun hr => rfl, ?_⟩
  · intro role h hr hrs
    rw [hrate role h hr]
    simp [wagesVal, xmul, xiferror, toNum]
  · intro h r
    simp [wagesVal, xmul, xiferror, toNum]

/-- Witness for C6: a "WiMi" row with registry rate 20 and 10 logged hours
has hourly rate 0 and wage total 0. -/
theorem c6_hourly_rate_and_wages_witness :
    hourlyRateVal (.str "WiMi") (.num 20) = .num 0 ∧
    wagesVal (.num 10) (hourlyRateVal (.str "WiMi") (.num 20)) = .num 0 :=
  ⟨c6_hourly_rate_and_wages.1 "WiMi" (by decide) (.num 20),
   c6_hourly_rate_and_wages.2.1 "WiMi" (by decide) (.num 20) 10⟩

/-- C7: every travel row's ticket line is unit_rate * quantity, the
rental-variable and private-car cells are the constant formula "=0", and
the row total F+I+K equals the ticket line plus those two zeros, so the
shared-vehicle cost contributes nothing at row level. -/
theorem c7_travel_row :
    (∀ u q : ℚ, travelLineVal (.num u) (.num q) = .num (u * q)) ∧
    (∀ row, travelCellFormula row 9 = some "=0") ∧
    (∀ row, travelCellFormula row 11 = some "=0") ∧
    suppressedVal = .num 0 ∧
    (∀ u q : ℚ,
      travelSubtotalVal (travelLineVal (.num u) (.num q)) suppressedVal suppressedVal
        = .num (u * q)) := by
  refine ⟨?_, fun row => rfl, fun row => rfl, rfl, ?_⟩
  · intro u q
    simp [travelLineVal, xmul, xiferror, toNum]
  · intro u q
    simp [travelLineVal, travelSubtotalVal, suppressedVal, xmul, xadd, xiferror, toNum]

/-- C8: `add_defined_name` is last-write-wins: whatever the prior registry
contents, afterwards the registry holds exactly one binding for the name,
pointing at the freshly built target. -/
theorem c8_defined_name_overwrite :
    ∀ (reg : List (String × String)) (sheet name a1 : String),
      (add_defined_name reg sheet name a1).filter (fun p => p.1 == name)
        = [(name, mk_target sheet a1)] := by
  intro reg sheet name a1
  simp [add_defined_name, List.filter_append, filter_eq_after_filter_ne]

/-- C9: the workbook's defined-name registry binds each of the eight rate
parameters to exactly one cell of the Inputs & Rates sheet; every
rate-dependent generated formula (in every row) references its parameter
by that defined name; and each participant row's overnight-rate cell is
initialized to the OVERNIGHT_DEFAULT registry value while the overnight
total multiplies the per-row cell J, so it stays editable per row. -/
theorem c9_symbolic_rate_references :
    build_registry =
      [("PER_DIEM", "'Inputs & Rates'!$B$2"),
       ("STADTMOBIL_BASE", "'Inputs & Rates'!$B$3"),
       ("STADTMOBIL_CAR_NUMBER", "'Inputs & Rates'!$B$4"),
       ("TOTAL_KM", "'Inputs & Rates'!$B$5"),
       ("STADTMOBIL_PER_KM", "'Inputs & Rates'!$B$6"),
       ("STADTMOBIL_LUMPSUM", "'Inputs & Rates'!$B$7"),
       ("OVERNIGHT_DEFAULT", "'Inputs & Rates'!$B$8"),
       ("HIWI_RATE", "'Inputs & Rates'!$B$9")] ∧
    (build_registry.map Prod.fst).Nodup ∧
    (∀ row, "PER_DIEM".toList <:+: (staffPerDiemFormula row).toList) ∧
    (∀ row, "HIWI_RATE".toList <:+: (staffHourlyRateFormula row).toList) ∧
    (∀ row, staffCellFormula row 10 = some "=OVERNIGHT_DEFAULT") ∧
    (∀ row, 'J' :: (toString row).toList <:+:
      (staffOvernightTotalFormula row).toList) ∧
    (∀ i j : ℚ, overnightTotalVal (.num i) (.num j) = .num (i * j)) ∧
    summaryCellB 8 = some stadtmobilSummaryFormula ∧
    "STADTMOBIL_LUMPSUM".toList <:+: stadtmobilSummaryFormula.toList ∧
    "STADTMOBIL_CAR_NUMBER".toList <:+: stadtmobilSummaryFormula.toList ∧
    "STADTMOBIL_BASE".toList <:+: stadtmobilSummaryFormula.toList ∧
    "TOTAL_KM".toList <:+: stadtmobilSummaryFormula.toList ∧
    "STADTMOBIL_PER_KM".toList <:+: stadtmobilSummaryFormula.toList := by
  refine ⟨by decide, by decide, ?_, ?_, fun row => rfl, ?_, ?_, rfl,
    by decide, by decide, by decide, by decide, by decide⟩
  · intro row
    have h : staffPerDiemFormula row =
        ("=IF(C" ++ toString row ++ "=\"Student (unpaid)\",0,IFERROR(F" ++ toString row)
          ++ "*PER_DIEM + G" ++ (toString row ++ "*PER_DIEM,0))") := by
      simp [staffPerDiemFormula, String.append_assoc]
    rw [h]
    exact isInfix_of_chunk _ _ (by decide)
  · intro row
    have h : staffHourlyRateFormula row =
        ("=IF(C" ++ toString row) ++ "=\"Hiwi (student assistant)\",HIWI_RATE,0)" := by
      simp [staffHourlyRateFormula, String.append_assoc]
    rw [h]
    exact isInfix_of_last_chunk _ (by decide)
  · intro row
    have h : staffOvernightTotalFormula row =
        ("=IFERROR(I" ++ toString row) ++ ("*J" ++ toString row) ++ ",0)" := by
      simp [staffOvernightTotalFormula, String.append_assoc]
    rw [h]
    refine isInfix_of_chunk _ _ ?_
    have hl : ("*J" ++ toString row).toList = '*' :: 'J' :: (toString row).toList := by
      show ("*J" ++ toString row).data = '*' :: 'J' :: (toString row).data
      rw [String.data_append]
      rfl
    rw [hl]
    exact (List.suffix_cons '*' ('J' :: (toString row).toList)).isInfix
  · intro i j
    simp [overnightTotalVal, xmul, xiferror, toNum]

/-- C10: in the Staff & Participants sheet the wage formula goes to column
15 and the subtotal formula to column 16, one column right of the
"Wages total (EUR)" / "Participant subtotal (EUR)" headers (entries 14 and
15 of the 15-entry header row); column 14 under the wages header stays
empty; the totals row sums exactly columns 8, 11, 12, 15, 16 — so O302 is
the SUM over the wage formulas — and the Summary wages category pulls
O302, hence equals the sum of the generated wage values. -/
theorem c10_wage_column_shift :
    staff_headers.length = 15 ∧
    staff_headers.get? 13 = some "Wages total (EUR)" ∧
    staff_headers.get? 14 = some "Participant subtotal (EUR)" ∧
    (∀ row, staffCellFormula row 14 = none) ∧
    (∀ row, staffCellFormula row 15 = some (staffWagesFormula row)) ∧
    (∀ row, staffCellFormula row 16 = some (staffSubtotalFormula row)) ∧
    staff_total_cols = [8, 11, 12, 15, 16] ∧
    get_column_letter 15 = "O" ∧
    staffTotalsFormula 15 = "=SUM(O2:O301)" ∧
    summaryCellB 6 = some "=IFERROR('Staff & Participants'!O302,0)" ∧
    (∀ ws : List ℚ, summaryPullVal (xsum (ws.map XVal.num)) = .num ws.sum) := by
  refine ⟨rfl, rfl, rfl, fun row => rfl, fun row => rfl, fun row => rfl,
    rfl, rfl, rfl, rfl, ?_⟩
  intro ws
  simp [summaryPullVal, xsum_map_num, xiferror]

end Fieldwork
